import Mathlib

/-!
Shallow embedding of `app.py` (FMEA & Root Cause Analysis Streamlit app).

The script is linear: load the Ollama configuration from the secrets store,
build the opening prompt from a text area (defaulting to a fixed FMEA request),
run a two-agent exchange, and render the final transcript message both raw and
as parsed YAML after stripping code-fence characters.

Modelling conventions:
* Python strings are Lean `String`s; Python `p in s` (substring test) is `strIn`.
* Python `str.strip()` / `str.strip("```yaml")` strip leading and trailing
  characters drawn from a character set; they are modelled at the `List Char`
  level by `stripCharsL`.
* The Streamlit secrets store (a TOML table of tables) is an association list
  of sections, each an association list of string keys to string values.
* `st.error` + `st.stop()` is modelled by returning a `halted` value carrying
  the displayed message; nothing after the halt point executes.
* The YAML parser (`yaml.safe_load`) is an external deterministic function; the
  renderer is parameterised by an arbitrary parser `String → Except String Y`,
  where `Except.error` models a raised parse exception caught by the handler.
-/

namespace FmeaApp

/-- `isPrefixL p s`: the char list `p` is a prefix of `s`. -/
def isPrefixL : List Char → List Char → Bool
  | [], _ => true
  | _ :: _, [] => false
  | a :: as, b :: bs => a == b && isPrefixL as bs

/-- `containsL p s`: the char list `p` occurs contiguously inside `s`. -/
def containsL (p : List Char) : List Char → Bool
  | [] => isPrefixL p []
  | c :: t => isPrefixL p (c :: t) || containsL p t

/-- Python's `p in text` on strings: substring containment. -/
def strIn (p text : String) : Bool :=
  containsL p.data text.data

/-- Python `str.strip(chars)` at the char-list level: drop the longest run of
characters belonging to `cs` from both the front and the back. -/
def stripCharsL (cs : List Char) (s : List Char) : List Char :=
  (((s.dropWhile fun c => cs.contains c).reverse.dropWhile fun c => cs.contains c).reverse)

/-- The whitespace characters removed by Python `str.strip()` with no argument
(the ASCII ones; the app's strings contain no exotic Unicode whitespace). -/
def pyWsChars : List Char := [' ', '\t', '\n', '\x0b', '\x0c', '\r']

/-- Python `s.strip()`. -/
def pyStrip (s : String) : String :=
  ⟨stripCharsL pyWsChars s.data⟩

/-- The character set of the Python argument `"```yaml"` to `str.strip`:
`str.strip` treats its argument as a set of characters, namely
`\x7b` backtick, `y`, `a`, `m`, `l` `\x7d`. -/
def fenceChars : List Char := "```yaml".data

/-- Python `s.strip("```yaml")` as written at app.py line 148. -/
def stripFenceSet (s : String) : String :=
  ⟨stripCharsL fenceChars s.data⟩

/-- Line 148: `fmea_content.strip().strip("```yaml").strip()` — the text the
renderer hands to `yaml.safe_load`. -/
def strippedContent (fmea_content : String) : String :=
  pyStrip (stripFenceSet (pyStrip fmea_content))

/-- What the run-FMEA button handler displays (lines 140-156): the raw
transcript text, optionally a parsed structure, and whether the generic
error banner was shown. -/
structure RenderOutcome (Y : Type) where
  rawShown : String
  parsedShown : Option Y
  errorBanner : Bool
deriving Repr, DecidableEq

/-- The button handler of lines 140-156, given the final transcript message
`fmea_content` and the YAML parser. `st.code(fmea_content)` runs before the
parse attempt, so the raw text is shown in both branches; a parse exception
falls into the `except` branch, which shows the error banner and leaves the
parsed section empty. -/
def run_fmea {Y : Type} (parse : String → Except String Y) (fmea_content : String) :
    RenderOutcome Y :=
  match parse (strippedContent fmea_content) with
  | Except.ok v => ⟨fmea_content, some v, false⟩
  | Except.error _ => ⟨fmea_content, none, true⟩

/-- A toy deterministic YAML parser used to instantiate the parser-parameterised
theorems on concrete inputs: accepts exactly the document `k: 1`. -/
def demoParse (t : String) : Except String Nat :=
  if t = "k: 1" then Except.ok 1 else Except.error "mapping expected"

/-- The Streamlit secrets store: a table of named sections, each mapping string
keys to string values (`secrets.toml` shape). -/
abbrev Secrets := List (String × List (String × String))

/-- The secrets store of the README comment (app.py lines 19-21), used to
instantiate the configuration theorems on a concrete complete store. -/
def demoSecrets : Secrets :=
  [("ollama", [("OLLAMA_HOST", "http://localhost:11434"), ("OLLAMA_MODEL", "mistral")])]

/-- Result of `get_ollama_config`: either the `(host, model)` pair, or a halt
(`st.error` message followed by `st.stop()`). -/
inductive ConfigResult where
  | ok (host model : String)
  | halted (msg : String)
deriving Repr, DecidableEq

/-- The fixed message displayed by the `KeyError` branch of
`get_ollama_config` (app.py lines 54-63), reproduced character for character
(the source file itself contains the mojibake prefix). -/
def keyErrorMsg : String :=
  "âŒ Missing Ollama configuration in Streamlit secrets.toml. Please add a `[ollama]` section with `OLLAMA_HOST` and `OLLAMA_MODEL`.\n\nExample:\n```toml\n[ollama]\nOLLAMA_HOST = \"http://localhost:11434\"\nOLLAMA_MODEL = \"mistral\"\n```"

/-- `get_ollama_config` (lines 44-69): reads
`st.secrets["ollama"]["OLLAMA_HOST"]` and `st.secrets["ollama"]["OLLAMA_MODEL"]`;
any missing key raises `KeyError`, displaying `keyErrorMsg` and stopping. -/
def get_ollama_config (secrets : Secrets) : ConfigResult :=
  match secrets.lookup "ollama" with
  | none => ConfigResult.halted keyErrorMsg
  | some sect =>
    match sect.lookup "OLLAMA_HOST" with
    | none => ConfigResult.halted keyErrorMsg
    | some host =>
      match sect.lookup "OLLAMA_MODEL" with
      | none => ConfigResult.halted keyErrorMsg
      | some model => ConfigResult.ok host model

/-- Observable outcome of the module-level script: either `st.stop()` fired
inside `get_ollama_config` (line 77) with a displayed message, or control
reached the agent constructions of lines 106-123. -/
inductive ScriptPhase where
  | configHalted (msg : String)
  | agentsConstructed (host model : String)
deriving Repr, DecidableEq

/-- The module-level flow: the config load at line 77 runs before any agent is
built; `st.stop()` prevents everything below it from executing. -/
def scriptStartup (secrets : Secrets) : ScriptPhase :=
  match get_ollama_config secrets with
  | ConfigResult.halted m => ScriptPhase.configHalted m
  | ConfigResult.ok h m => ScriptPhase.agentsConstructed h m

/-- `default_prompt` (lines 80-85), the adjacent string literals concatenated. -/
def default_prompt : String :=
  "Perform a Failure Mode and Effects Analysis (FMEA) for a car brake system. Identify potential failure modes, their effects, severity, causes, and recommended actions. Present the output as a YAML object. The FMEA table should include the following columns: \x27Failure Mode\x27, \x27Effect\x27, \x27Severity (1-10)\x27, \x27Cause\x27, \x27Recommended Action\x27."

/-- The `value=` argument of the `st.text_area` call (line 90): the text area
starts out holding `default_prompt`. -/
def requirements_default : String := default_prompt

/-- The `system_message` of the `FMEA_Expert` assistant agent (lines 108-112),
handed to the expert role, not to the opening turn. -/
def fmea_expert_system_message : String :=
  "You are an expert in Failure Mode and Effects Analysis (FMEA). Your task is to take a set of requirements and generate a detailed FMEA report. You must follow the format instructions precisely and provide only the requested output."

/-- The string handed as `message=` to `user_proxy.initiate_chat` (line 136):
the text-area contents `requirements`, verbatim. -/
def openingMessage (requirements : String) : String := requirements

/-- The `is_termination_msg` lambda of the `UserProxyAgent` (line 121):
`lambda x: "```yaml" in x or "```json" in x`, applied to a message text. -/
def is_termination_msg (x : String) : Bool :=
  strIn "```yaml" x || strIn "```json" x

/-- The `max_consecutive_auto_reply` argument of the `UserProxyAgent`
(line 120). -/
def max_consecutive_auto_reply : Nat := 10

/-! ### Helper lemmas -/

theorem isPrefixL_iff (p s : List Char) : isPrefixL p s = true ↔ ∃ t, s = p ++ t := by
  induction p generalizing s with
  | nil => exact ⟨fun _ => ⟨s, rfl⟩, fun _ => rfl⟩
  | cons a as ih =>
    cases s with
    | nil =>
      constructor
      · intro h; simp [isPrefixL] at h
      · rintro ⟨t, ht⟩; cases ht
    | cons b bs =>
      simp only [isPrefixL, Bool.and_eq_true, beq_iff_eq, ih]
      constructor
      · rintro ⟨rfl, t, rfl⟩; exact ⟨t, rfl⟩
      · rintro ⟨t, ht⟩
        injection ht with h1 h2
        exact ⟨h1.symm, t, h2⟩

theorem containsL_iff (p s : List Char) : containsL p s = true ↔ ∃ a b, s = a ++ (p ++ b) := by
  induction s with
  | nil =>
    simp only [containsL, isPrefixL_iff]
    constructor
    · rintro ⟨t, ht⟩; exact ⟨[], t, ht⟩
    · rintro ⟨a, b, h⟩
      rcases List.append_eq_nil.mp h.symm with ⟨rfl, h2⟩
      exact ⟨b, h2.symm⟩
  | cons c t ih =>
    simp only [containsL, Bool.or_eq_true, isPrefixL_iff, ih]
    constructor
    · rintro (⟨u, hu⟩ | ⟨a, b, hb⟩)
      · exact ⟨[], u, hu⟩
      · exact ⟨c :: a, b, by rw [hb]; rfl⟩
    · rintro ⟨a, b, h⟩
      cases a with
      | nil => exact Or.inl ⟨b, h⟩
      | cons a0 as =>
        injection h with h1 h2
        exact Or.inr ⟨as, b, h2⟩

theorem strIn_iff (p s : String) : strIn p s = true ↔ ∃ a b : String, s = a ++ p ++ b := by
  rw [strIn, containsL_iff]
  constructor
  · rintro ⟨A, B, h⟩
    refine ⟨⟨A⟩, ⟨B⟩, String.ext ?_⟩
    simpa [String.data_append] using h
  · rintro ⟨a, b, rfl⟩
    exact ⟨a.data, b.data, by simp [String.data_append]⟩

theorem head?_dropWhile_false {α : Type} (p : α → Bool) (l : List α) (a : α)
    (h : (l.dropWhile p).head? = some a) : p a = false := by
  induction l with
  | nil => simp [List.dropWhile] at h
  | cons b t ih =>
    rw [List.dropWhile_cons] at h
    by_cases hb : p b = true
    · rw [if_pos hb] at h; exact ih h
    · rw [if_neg hb] at h
      simp only [List.head?_cons, Option.some.injEq] at h
      subst h
      exact Bool.of_not_eq_true hb

theorem getLast?_dropWhile {α : Type} (p : α → Bool) (l : List α) (a : α)
    (h : (l.dropWhile p).getLast? = some a) : l.getLast? = some a := by
  induction l with
  | nil => simp [List.dropWhile] at h
  | cons b t ih =>
    rw [List.dropWhile_cons] at h
    by_cases hb : p b = true
    · rw [if_pos hb] at h
      have ht := ih h
      cases t with
      | nil => simp at ht
      | cons c ts => rw [List.getLast?_cons_cons]; exact ht
    · rwa [if_neg hb] at h

theorem stripCharsL_head (cs s : List Char) (a : Char)
    (h : (stripCharsL cs s).head? = some a) : cs.contains a = false := by
  rw [stripCharsL, ← List.getLast?_eq_head?_reverse] at h
  have h2 := getLast?_dropWhile _ _ _ h
  rw [List.getLast?_eq_head?_reverse, List.reverse_reverse] at h2
  exact head?_dropWhile_false _ _ _ h2

theorem stripCharsL_last (cs s : List Char) (a : Char)
    (h : (stripCharsL cs s).getLast? = some a) : cs.contains a = false := by
  rw [stripCharsL, List.getLast?_eq_head?_reverse, List.reverse_reverse] at h
  exact head?_dropWhile_false _ _ _ h

/-! ### Claim theorems -/

/-- Claim C1: for every transcript string whose fence-stripped form the YAML
parser accepts, the structure the renderer displays is exactly the parser's
result on that same fence-stripped text. The parser is universally
quantified, so the theorem holds in particular for an independent run of the
same deterministic `yaml.safe_load`. -/
theorem renderer_matches_parse_output {Y : Type} (parse : String → Except String Y)
    (s : String) (v : Y) (h : parse (strippedContent s) = Except.ok v) :
    (run_fmea parse s).parsedShown = some v := by
  simp [run_fmea, h]

/-- Witness for C1: the fenced document `k: 1` round-trips through the
renderer. -/
theorem renderer_matches_parse_output_witness :
    (run_fmea demoParse "```yaml\nk: 1\n```").parsedShown = some 1 :=
  renderer_matches_parse_output demoParse "```yaml\nk: 1\n```" 1 (by rfl)

/-- Claim C2: the task-driving role is configured with at most 10 consecutive
automatic replies, and its termination predicate holds exactly when the
message text contains a fenced marker, i.e. has three backticks followed by
`yaml` or by `json` as a contiguous substring. -/
theorem termination_predicate_textual :
    max_consecutive_auto_reply = 10 ∧
    ∀ x : String, is_termination_msg x = true ↔
      ((∃ a b : String, x = a ++ "```yaml" ++ b)
        ∨ (∃ a b : String, x = a ++ "```json" ++ b)) := by
  refine ⟨rfl, fun x => ?_⟩
  simp only [is_termination_msg, Bool.or_eq_true, strIn_iff]

/-- Claim C3: whenever the `ollama` section or one of its two required keys is
absent from the secrets store, the module-level script halts inside
`get_ollama_config` displaying the fixed error message — so no agent is ever
constructed and nothing downstream runs — and that message names both
`OLLAMA_HOST` and `OLLAMA_MODEL` verbatim, hence in particular the missing
key. -/
theorem missing_key_halts (secrets : Secrets)
    (h : secrets.lookup "ollama" = none
       ∨ ∃ sect, secrets.lookup "ollama" = some sect
          ∧ (sect.lookup "OLLAMA_HOST" = none ∨ sect.lookup "OLLAMA_MODEL" = none)) :
    scriptStartup secrets = ScriptPhase.configHalted keyErrorMsg
    ∧ (∀ host model, scriptStartup secrets ≠ ScriptPhase.agentsConstructed host model)
    ∧ strIn "OLLAMA_HOST" keyErrorMsg = true
    ∧ strIn "OLLAMA_MODEL" keyErrorMsg = true := by
  have hmain : scriptStartup secrets = ScriptPhase.configHalted keyErrorMsg := by
    rcases h with h1 | ⟨sect, h1, h2 | h2⟩
    · simp [scriptStartup, get_ollama_config, h1]
    · simp [scriptStartup, get_ollama_config, h1, h2]
    · cases hh : sect.lookup "OLLAMA_HOST" with
      | none => simp [scriptStartup, get_ollama_config, h1, hh]
      | some host => simp [scriptStartup, get_ollama_config, h1, hh, h2]
  refine ⟨hmain, ?_, by decide, by decide⟩
  intro host model hcontra
  rw [hmain] at hcontra
  exact ScriptPhase.noConfusion hcontra

/-- Witness for C3: the empty secrets store halts at the config loader. -/
theorem missing_key_halts_witness :
    scriptStartup [] = ScriptPhase.configHalted keyErrorMsg :=
  (missing_key_halts [] (Or.inl rfl)).1

/-- Claim C4: when the parser rejects the fence-stripped transcript, the
handler raises nothing further: the failure lands in the `except` branch, the
error banner is shown, and the raw transcript (already rendered before the
parse attempt) stays displayed, with no parsed structure shown. -/
theorem parse_failure_keeps_raw {Y : Type} (parse : String → Except String Y)
    (s e : String) (h : parse (strippedContent s) = Except.error e) :
    (run_fmea parse s).rawShown = s
    ∧ (run_fmea parse s).parsedShown = none
    ∧ (run_fmea parse s).errorBanner = true := by
  simp [run_fmea, h]

/-- Witness for C4: a transcript the demo parser rejects still shows raw text
plus the banner. -/
theorem parse_failure_keeps_raw_witness :
    (run_fmea demoParse "oops").rawShown = "oops"
    ∧ (run_fmea demoParse "oops").parsedShown = none
    ∧ (run_fmea demoParse "oops").errorBanner = true :=
  parse_failure_keeps_raw demoParse "oops" "mapping expected" (by rfl)

/-- Claim C5: on a secrets store holding both required keys under `ollama`,
`get_ollama_config` returns exactly the stored `(host, model)` pair,
unmodified. -/
theorem complete_store_returns_pair (secrets : Secrets) (sect : List (String × String))
    (host model : String)
    (h1 : secrets.lookup "ollama" = some sect)
    (h2 : sect.lookup "OLLAMA_HOST" = some host)
    (h3 : sect.lookup "OLLAMA_MODEL" = some model) :
    get_ollama_config secrets = ConfigResult.ok host model := by
  simp [get_ollama_config, h1, h2, h3]

/-- Witness for C5: the documented example store yields its own host and model
strings. -/
theorem complete_store_returns_pair_witness :
    get_ollama_config demoSecrets = ConfigResult.ok "http://localhost:11434" "mistral" :=
  complete_store_returns_pair demoSecrets
    [("OLLAMA_HOST", "http://localhost:11434"), ("OLLAMA_MODEL", "mistral")]
    "http://localhost:11434" "mistral" rfl rfl rfl

/-- Claim C6: the renderer's pre-parse stripping has Python `str.strip`
character-set semantics: after the `strip("```yaml")` step no leading or
trailing character drawn from the set backtick/`y`/`a`/`m`/`l` survives — it
strips characters, not only a whole fence token — and in particular a
transcript with no fence marker at all (here without even a backtick) is
altered before parsing when its content starts or ends with such
characters. -/
theorem strip_uses_charset_semantics :
    (∀ (s : String) (a : Char),
      (stripFenceSet (pyStrip s)).data.head? = some a → a ∉ fenceChars)
    ∧ (∀ (s : String) (a : Char),
      (stripFenceSet (pyStrip s)).data.getLast? = some a → a ∉ fenceChars)
    ∧ strippedContent "malfunction: normal" = "function: nor"
    ∧ strIn "`" "malfunction: normal" = false := by
  refine ⟨?_, ?_, by decide, by decide⟩
  · intro s a h hmem
    have hc := stripCharsL_head fenceChars (pyStrip s).data a h
    have ht : fenceChars.contains a = true := List.elem_iff.mpr hmem
    rw [hc] at ht
    exact Bool.noConfusion ht
  · intro s a h hmem
    have hc := stripCharsL_last fenceChars (pyStrip s).data a h
    have ht : fenceChars.contains a = true := List.elem_iff.mpr hmem
    rw [hc] at ht
    exact Bool.noConfusion ht

/-- Witness for C6: the first character surviving the charset strip of
`malfunction: normal` is `f`, so `f` is outside the fence character set. -/
theorem strip_uses_charset_semantics_witness : 'f' ∉ fenceChars :=
  strip_uses_charset_semantics.1 "malfunction: normal" 'f' (by rfl)

/-- Claim C7: prompt building is deterministic and referentially pure: two
runs with identical text-area contents hand the identical opening message to
the agent exchange (the embedding is a pure function of the text-area
string, matching the source, which reads no other state at line 136). -/
theorem prompt_building_deterministic (u v : String) (h : u = v) :
    openingMessage u = openingMessage v := by
  rw [h]

/-- Witness for C7: instantiated at the default text-area contents. -/
theorem prompt_building_deterministic_witness :
    openingMessage requirements_default = openingMessage requirements_default :=
  prompt_building_deterministic requirements_default requirements_default rfl

/-- Counterexample to claim C8: with user text `X`, the opening turn handed to
`initiate_chat` is the one-character string `X`; it contains neither the
fixed default analysis request nor the expert role's fixed instruction text,
so it is not a combination of a fixed instruction template with the
user-supplied content. -/
theorem opening_turn_lacks_template :
    openingMessage "X" = "X"
    ∧ (openingMessage "X").length = 1
    ∧ strIn default_prompt (openingMessage "X") = false
    ∧ strIn fmea_expert_system_message (openingMessage "X") = false :=
  ⟨rfl, rfl, by decide, by decide⟩

/-- Claim C8 (amended): the string handed as the opening conversational turn
is the user-editable text-area content verbatim, one string; the fixed
instruction template is only that text area's default value (so the unedited
default hands the fixed analysis request), while the fixed system instruction
goes to the expert role separately, not into the opening turn. -/
theorem opening_turn_is_user_text (u : String) :
    openingMessage u = u ∧ openingMessage requirements_default = default_prompt :=
  ⟨rfl, rfl⟩

/-- Claim C9: every configuration halt displays the same fixed message, which
names both `OLLAMA_HOST` and `OLLAMA_MODEL` and an example `[ollama]`
section, whichever key was missing. -/
theorem config_error_message_fixed (secrets : Secrets) (msg : String)
    (h : get_ollama_config secrets = ConfigResult.halted msg) :
    msg = keyErrorMsg
    ∧ strIn "OLLAMA_HOST" keyErrorMsg = true
    ∧ strIn "OLLAMA_MODEL" keyErrorMsg = true
    ∧ strIn "[ollama]" keyErrorMsg = true := by
  refine ⟨?_, by decide, by decide, by decide⟩
  unfold get_ollama_config at h
  cases hA : secrets.lookup "ollama" with
  | none =>
    simp only [hA] at h
    injection h with h'
    exact h'.symm
  | some sect =>
    simp only [hA] at h
    cases hB : sect.lookup "OLLAMA_HOST" with
    | none =>
      simp only [hB] at h
      injection h with h'
      exact h'.symm
    | some host =>
      simp only [hB] at h
      cases hC : sect.lookup "OLLAMA_MODEL" with
      | none =>
        simp only [hC] at h
        injection h with h'
        exact h'.symm
      | some model =>
        simp only [hC] at h
        exact ConfigResult.noConfusion h

/-- Witness for C9: the empty store's halt message is the fixed one. -/
theorem config_error_message_fixed_witness :
    keyErrorMsg = keyErrorMsg
    ∧ strIn "OLLAMA_HOST" keyErrorMsg = true
    ∧ strIn "OLLAMA_MODEL" keyErrorMsg = true
    ∧ strIn "[ollama]" keyErrorMsg = true :=
  config_error_message_fixed [] keyErrorMsg rfl

/-- Claim C10: when the user input is exactly the default analysis prompt, the
opening message handed to the agent runner contains the literal substring
`car brake system`. -/
theorem default_prompt_contains_brake_system :
    strIn "car brake system" (openingMessage default_prompt) = true := by
  decide

end FmeaApp
